import Mathlib

/-!
Verification development for the CAD_backend survey-sketch service.

The definitions below are a shallow embedding of the JavaScript source:

* `src/config/constants.js` / `src/config/database.js` — status enums and
  document keys.
* `src/models/assignment/SurveySketchAssignment.js` — the assignment
  document and the `{surveyorSketchUpload, status}` index declaration.
* `src/models/surveyor/SurveyorSketchUpload.js` — the upload document, the
  at-least-one-document validate hook and the applicationId pre-save hook.
* `src/services/assignment/surveySketchAssignment.service.js` — `create`,
  `update` and `respondToAssignment`.
* `src/services/surveyorSketchUpload.service.js` — `create`.
* the HTTP layer: the assignment controller (`respondToAssignment` default
  action) and the `surveySketchAssignmentUpdate` request validator.

MongoDB object ids are embedded as `Nat`, dates as `Nat` timestamps, and a
collection as a `List` of documents.  Each service function is a pure
function from a store to a result paired with the store it leaves behind;
a thrown JS error becomes an `Except.error` and, since every throw in the
embedded code happens before any write, the store is returned unchanged on
those paths.
-/

namespace CadBackend

/-- `SURVEY_SKETCH_ASSIGNMENT_STATUS` from `src/config/database.js`. -/
inductive AssignmentStatus
  | ASSIGNED
  | IN_PROGRESS
  | COMPLETED
  | ON_HOLD
  | CANCELLED
  deriving DecidableEq, Repr

/-- `SURVEY_SKETCH_STATUS` from `src/config/database.js`. -/
inductive SketchStatus
  | PENDING
  | ASSIGNED
  | UNDER_REVIEW
  | APPROVED
  | REJECTED
  deriving DecidableEq, Repr

/-- `USER_ROLES` from `src/config/constants.js`. -/
inductive Role
  | SUPER_ADMIN
  | ADMIN
  | CAD
  | SURVEYOR
  deriving DecidableEq, Repr

/-- The string value stored for each assignment status. -/
def AssignmentStatus.toStr : AssignmentStatus → String
  | .ASSIGNED => "ASSIGNED"
  | .IN_PROGRESS => "IN_PROGRESS"
  | .COMPLETED => "COMPLETED"
  | .ON_HOLD => "ON_HOLD"
  | .CANCELLED => "CANCELLED"

/-- `Object.values(SURVEY_SKETCH_ASSIGNMENT_STATUS)` — the five legal
assignment status strings, in declaration order. -/
def ASSIGNMENT_STATUS_VALUES : List String :=
  ["ASSIGNED", "IN_PROGRESS", "COMPLETED", "ON_HOLD", "CANCELLED"]

/-- Parse a status string back into the enum; `some` exactly on the five
values of `ASSIGNMENT_STATUS_VALUES` (the `includes` check of the service). -/
def statusOfString : String → Option AssignmentStatus
  | "ASSIGNED" => some .ASSIGNED
  | "IN_PROGRESS" => some .IN_PROGRESS
  | "COMPLETED" => some .COMPLETED
  | "ON_HOLD" => some .ON_HOLD
  | "CANCELLED" => some .CANCELLED
  | _ => none

/-- `SURVEY_SKETCH_DOCUMENT_KEYS` from `src/config/constants.js`. -/
def SURVEY_SKETCH_DOCUMENT_KEYS : List String :=
  ["moolaTippani", "hissaTippani", "atlas", "rrPakkabook", "kharabu"]

/-- One entry of the `documents` map (`SurveyDocumentSchema`). -/
structure SurveyDocRef where
  url : String
  fileName : Option String := none
  mimeType : Option String := none
  size : Option Nat := none
  deriving DecidableEq, Repr

/-- A `SurveyorSketchUpload` document. -/
structure Upload where
  id : Nat
  surveyor : Nat
  surveyType : String
  district : Nat
  taluka : Nat
  hobli : Nat
  village : Nat
  surveyNo : String
  applicationId : Option String
  documents : List (String × SurveyDocRef)
  others : Option String
  status : SketchStatus
  deriving DecidableEq, Repr

/-- A `SurveySketchAssignment` document. -/
structure Assignment where
  id : Nat
  surveyorSketchUpload : Nat
  cadCenter : Nat
  assignedTo : Option Nat
  status : AssignmentStatus
  assignedBy : Nat
  assignedAt : Nat
  dueDate : Option Nat
  completedAt : Option Nat
  notes : Option String
  deriving DecidableEq, Repr

/-- A `CadCenter` document (only the fields the embedded services read). -/
structure CadCenter where
  id : Nat
  deletedAt : Option Nat
  deriving DecidableEq, Repr

/-- A `User`: `cadCenter` embeds `cadProfile.cadCenter`, which the
`CadProfileSchema` leaves optional. -/
structure User where
  id : Nat
  role : Role
  cadCenter : Option Nat
  deriving DecidableEq, Repr

/-- A `District` master document. -/
structure District where
  id : Nat
  code : String
  deriving DecidableEq, Repr

/-- A `Taluka` master document: `districtId` is the stored parent link. -/
structure Taluka where
  id : Nat
  code : String
  districtId : Nat
  deriving DecidableEq, Repr

/-- A `Hobli` master document: `talukaId` is the stored parent link. -/
structure Hobli where
  id : Nat
  talukaId : Nat
  deriving DecidableEq, Repr

/-- A `Village` master document: `hobliId` is the stored parent link. -/
structure Village where
  id : Nat
  hobliId : Nat
  deriving DecidableEq, Repr

/-- The MongoDB collections the embedded services touch. -/
structure Store where
  districts : List District
  talukas : List Taluka
  hoblis : List Hobli
  villages : List Village
  centers : List CadCenter
  uploads : List Upload
  assignments : List Assignment
  deriving DecidableEq, Repr

/-- The service errors (`src/utils/errors.js`), carrying the `code` (or
message) each throw site passes, plus the extra data the claims mention:
the existing assignment id on Conflict and the current status on the
invalid-status BadRequest. -/
inductive Err
  | notFound (code : String)
  | conflict (code : String) (assignmentId : Nat)
  | forbidden (code : String)
  | badRequest (code : String)
  | badRequestStatus (code : String) (current : AssignmentStatus)
  deriving DecidableEq, Repr

/-- Is this a NotFound-class (HTTP 404) error? -/
def Err.isNotFound : Err → Bool
  | .notFound _ => true
  | _ => false

/-- `SurveyorSketchUpload.findById(id)`. -/
def findUpload (st : Store) (i : Nat) : Option Upload :=
  st.uploads.find? (fun u => u.id == i)

/-- `CadCenter.findOne({ _id: id, deletedAt: null })`. -/
def findCenter (st : Store) (i : Nat) : Option CadCenter :=
  st.centers.find? (fun c => c.id == i && c.deletedAt == none)

/-- `SurveySketchAssignment.findById(id)`. -/
def findAssignment (st : Store) (i : Nat) : Option Assignment :=
  st.assignments.find? (fun a => a.id == i)

/-- `SurveyorSketchUpload.findByIdAndUpdate(id, { status })`. -/
def setUploadStatus (st : Store) (i : Nat) (s : SketchStatus) : Store :=
  { st with uploads := st.uploads.map (fun u => if u.id == i then { u with status := s } else u) }

/-- `doc.save()` on an already-stored assignment: replace the document with
the same `_id`. -/
def saveAssignment (st : Store) (a : Assignment) : Store :=
  { st with assignments := st.assignments.map (fun x => if x.id == a.id then a else x) }

/-- The predicate of the pre-check query in assignment `create`:
`{ surveyorSketchUpload: id, status: { $nin: [CANCELLED] } }`. -/
def activeFor (i : Nat) (a : Assignment) : Bool :=
  a.surveyorSketchUpload == i && !(a.status == AssignmentStatus.CANCELLED)

/-- `notes ? String(notes).trim().slice(0, 1000) : null`. -/
def normNotes : Option String → Option String
  | none => none
  | some s => if s == "" then none else some (s.trim.take 1000)

/-- The payload of assignment `create` after the request validator. -/
structure CreateAssignmentPayload where
  surveyorSketchUploadId : Nat
  cadCenterId : Nat
  dueDate : Option Nat
  notes : Option String
  deriving DecidableEq, Repr

/-- `create` from `src/services/assignment/surveySketchAssignment.service.js`:
look up the sketch and the (non-deleted) center, reject when any active
(non-CANCELLED) assignment already exists for the sketch, otherwise insert a
new ASSIGNED assignment and flip the sketch status to ASSIGNED.  `freshId`
is the object id the driver mints for the new document and `now` the
current timestamp. -/
def assignmentCreate (st : Store) (payload : CreateAssignmentPayload)
    (assignedBy : Nat) (freshId : Nat) (now : Nat) :
    Except Err Assignment × Store :=
  match findUpload st payload.surveyorSketchUploadId with
  | none => (.error (.notFound "SURVEY_SKETCH_NOT_FOUND"), st)
  | some _ =>
    match findCenter st payload.cadCenterId with
    | none => (.error (.notFound "CAD_CENTER_NOT_FOUND"), st)
    | some _ =>
      match st.assignments.find? (activeFor payload.surveyorSketchUploadId) with
      | some existing => (.error (.conflict "ALREADY_ASSIGNED" existing.id), st)
      | none =>
        let doc : Assignment :=
          { id := freshId
            surveyorSketchUpload := payload.surveyorSketchUploadId
            cadCenter := payload.cadCenterId
            assignedTo := none
            status := .ASSIGNED
            assignedBy := assignedBy
            assignedAt := now
            dueDate := payload.dueDate
            completedAt := none
            notes := normNotes payload.notes }
        let st1 : Store := { st with assignments := st.assignments ++ [doc] }
        let st2 := setUploadStatus st1 payload.surveyorSketchUploadId .ASSIGNED
        (.ok doc, st2)

/-- `respondToAssignment` from the assignment service: NotFound when the
assignment is missing, Forbidden when the CAD user has no linked center or a
different center, BadRequest (naming the current status) unless the status
is ASSIGNED; then `action === "accept"` moves to IN_PROGRESS with
`assignedTo := user`, and any other action cancels the assignment and
reverts the sketch to PENDING. -/
def respondToAssignment (st : Store) (assignmentId : Nat) (cadUser : User)
    (action : String) : Except Err Assignment × Store :=
  match findAssignment st assignmentId with
  | none => (.error (.notFound "ASSIGNMENT_NOT_FOUND"), st)
  | some doc =>
    match cadUser.cadCenter with
    | none => (.error (.forbidden "CAD_CENTER_NOT_LINKED"), st)
    | some userCenterId =>
      if userCenterId != doc.cadCenter then
        (.error (.forbidden "ASSIGNMENT_NOT_FOR_YOUR_CENTER"), st)
      else if doc.status != AssignmentStatus.ASSIGNED then
        (.error (.badRequestStatus "INVALID_STATUS_FOR_RESPONSE" doc.status), st)
      else if action == "accept" then
        let doc' := { doc with status := .IN_PROGRESS, assignedTo := some cadUser.id }
        (.ok doc', saveAssignment st doc')
      else
        let doc' := { doc with status := AssignmentStatus.CANCELLED }
        let st1 := saveAssignment st doc'
        let st2 := setUploadStatus st1 doc.surveyorSketchUpload .PENDING
        (.ok doc', st2)

/-- `payload?.action || "accept"` in the assignment controller
(`respondToAssignment`): a missing or falsy (empty) action defaults to
`"accept"`. -/
def controllerRespondAction (action : Option String) : String :=
  match action with
  | none => "accept"
  | some s => if s == "" then "accept" else s

/-- The update fields the service receives: `none` embeds a JS `undefined`
(field absent), and for `dueDate`/`notes` the inner `Option` embeds the
null/falsy case. -/
structure UpdateFields where
  status : Option String
  dueDate : Option (Option Nat)
  notes : Option (Option String)
  deriving DecidableEq, Repr

/-- `update` from the assignment service: a `status` that is one of the five
enum values is applied (stamping `completedAt := now` when it is COMPLETED),
an unrecognised one is skipped; `dueDate`/`notes` are applied when present;
the document is saved, and when the applied status is CANCELLED the linked
sketch is reverted to PENDING. -/
def assignmentUpdate (st : Store) (assignmentId : Nat) (updates : UpdateFields)
    (now : Nat) : Except Err Assignment × Store :=
  match findAssignment st assignmentId with
  | none => (.error (.notFound "ASSIGNMENT_NOT_FOUND"), st)
  | some doc =>
    let allowedStatus : Option AssignmentStatus :=
      match updates.status with
      | none => none
      | some s => statusOfString s
    let doc' : Assignment :=
      { doc with
        status := allowedStatus.getD doc.status
        completedAt :=
          if allowedStatus == some AssignmentStatus.COMPLETED then some now
          else doc.completedAt
        dueDate := (updates.dueDate).getD doc.dueDate
        notes :=
          match updates.notes with
          | none => doc.notes
          | some v => normNotes v }
    let st1 := saveAssignment st doc'
    let st2 :=
      if allowedStatus == some AssignmentStatus.CANCELLED then
        setUploadStatus st1 doc.surveyorSketchUpload .PENDING
      else st1
    (.ok doc', st2)

/-- `String.prototype.toUpperCase` on the status string: uppercase each
character. -/
def jsToUpper (s : String) : String :=
  String.mk (s.data.map Char.toUpper)

/-- `String(body.notes).trim().slice(0, 1000) || null` in the request
validator: trim and truncate first, then an empty result becomes null. -/
def trimSliceOrNull (s : String) : Option String :=
  let t := s.trim.take 1000
  if t == "" then none else some t

/-- `surveySketchAssignmentUpdate` request body (HTTP layer), before
validation.  `status` is the raw string; `dueDate` dates are embedded as
already-parsed timestamps (`some none` for a provided null/empty value). -/
structure UpdateReqBody where
  status : Option String
  dueDate : Option (Option Nat)
  notes : Option String
  deriving DecidableEq, Repr

/-- The `schemas.surveySketchAssignmentUpdate` request validator: a provided
`status` is uppercased and must be one of the five enum values, otherwise
BadRequest; a wholly empty update is BadRequest. -/
def validateAssignmentUpdate (body : UpdateReqBody) : Except Err UpdateFields :=
  match body.status with
  | some s =>
    let u := jsToUpper s
    if ASSIGNMENT_STATUS_VALUES.contains u then
      .ok { status := some u
            dueDate := body.dueDate
            notes := body.notes.map trimSliceOrNull }
    else
      .error (.badRequest "status must be one of: ASSIGNED, IN_PROGRESS, COMPLETED, ON_HOLD, CANCELLED")
  | none =>
    if body.dueDate == none && body.notes == none then
      .error (.badRequest "At least one field to update is required")
    else
      .ok { status := none
            dueDate := body.dueDate
            notes := body.notes.map trimSliceOrNull }

/-- The assignment-update HTTP endpoint (`updateSurveySketchAssignment` in
the handler): validate the body with `surveySketchAssignmentUpdate`, then
run the service `update`. -/
def updateEndpoint (st : Store) (assignmentId : Nat) (body : UpdateReqBody)
    (now : Nat) : Except Err Assignment × Store :=
  match validateAssignmentUpdate body with
  | .error e => (.error e, st)
  | .ok updates => assignmentUpdate st assignmentId updates now

/-- JS whitespace for `String.prototype.trim` (the ASCII whitespace the
embedded action strings can contain). -/
def isJsSpace (c : Char) : Bool :=
  c == ' ' || c == '\t' || c == '\n' || c == '\r'

/-- Trim `isJsSpace` characters from both ends of a char list. -/
def listTrim (l : List Char) : List Char :=
  ((l.dropWhile isJsSpace).reverse.dropWhile isJsSpace).reverse

/-- `String(body.action).toLowerCase().trim()` in the respond request
validator. -/
def jsLowerTrim (s : String) : String :=
  String.mk (listTrim (s.data.map Char.toLower))

/-- The respond request body (HTTP layer): `action` is optional. -/
structure RespondReqBody where
  action : Option String
  deriving DecidableEq, Repr

/-- The `schemas.cadAssignmentRespond` request validator: a missing, null or
empty action defaults to "accept", any other value is lowercased and
trimmed; a result outside {accept, reject} is a BadRequest. -/
def validateCadAssignmentRespond (body : Option RespondReqBody) : Except Err String :=
  let action :=
    match body with
    | none => "accept"
    | some b =>
      match b.action with
      | none => "accept"
      | some a => if a == "" then "accept" else jsLowerTrim a
  if action == "accept" || action == "reject" then .ok action
  else .error (.badRequest "action must be accept or reject")

/-- The respond HTTP endpoint (`acceptAssignmentByCad` in the handler, the
only route to the controller): validate the body with
`cadAssignmentRespond`, pass the validated payload through the controller's
`payload?.action || "accept"` default, then run the service. -/
def respondEndpoint (st : Store) (assignmentId : Nat) (cadUser : User)
    (body : Option RespondReqBody) : Except Err Assignment × Store :=
  match validateCadAssignmentRespond body with
  | .error e => (.error e, st)
  | .ok action =>
    respondToAssignment st assignmentId cadUser (controllerRespondAction (some action))

/-- `documents.get(k)` on the stored documents map. -/
def docGet (docs : List (String × SurveyDocRef)) (k : String) : Option SurveyDocRef :=
  (docs.find? (fun p => p.1 == k)).map (fun p => p.2)

/-- The `pre("validate")` hook of `SurveyorSketchUploadSchema`: among the
five fixed document keys that occur in the map, at least one entry must
have a truthy (non-empty) `url`. -/
def hasAtLeastOneDocument (docs : List (String × SurveyDocRef)) : Bool :=
  let docKeys := docs.map (fun p => p.1)
  let validKeys := SURVEY_SKETCH_DOCUMENT_KEYS.filter (fun k => docKeys.contains k)
  validKeys.any (fun k =>
    match docGet docs k with
    | some d => d.url != ""
    | none => false)

/-- Is the first char list an initial segment of the second? -/
def listStartsWith : List Char → List Char → Bool
  | [], _ => true
  | _ :: _, [] => false
  | c :: cs, d :: ds => c == d && listStartsWith cs ds

/-- Decimal value of a digit list (the `parseInt(match[1], 10)` of the
hook; only applied to all-digit suffixes). -/
def digitsToNat (acc : Nat) : List Char → Nat
  | [] => acc
  | c :: cs => digitsToNat (acc * 10 + (c.toNat - 48)) cs

/-- Code-unit lexicographic order on char lists — the order MongoDB uses to
sort ASCII strings under `sort({ applicationId: -1 })`. -/
def listLexLt : List Char → List Char → Bool
  | [], [] => false
  | [], _ :: _ => true
  | _ :: _, [] => false
  | a :: as, b :: bs => if a == b then listLexLt as bs else decide (a.toNat < b.toNat)

/-- Lexicographic order on strings (via their char lists). -/
def strLt (s t : String) : Bool :=
  listLexLt s.data t.data

/-- Does `s` match the generator's regexp `^<pfx><digits>$` (the scope
followed by a non-empty run of digits)? -/
def matchesScopedId (pfx s : String) : Bool :=
  listStartsWith pfx.data s.data &&
    (let rest := s.data.drop pfx.data.length
     !rest.isEmpty && rest.all Char.isDigit)

/-- `findOne(...).sort({ applicationId: -1 })`: the lexicographically
greatest string of the list, `none` when it is empty. -/
def maxLex (l : List String) : Option String :=
  l.foldl (fun acc s =>
    match acc with
    | none => some s
    | some m => if strLt m s then some s else some m) none

/-- Numeric value of the trailing match group: the digits of `s` after the
scope `pfx`. -/
def scopedSuffixNat (pfx s : String) : Nat :=
  digitsToNat 0 (s.data.drop pfx.data.length)

/-- The applicationId `pre("save")` hook of `SurveyorSketchUploadSchema`,
as a function of the applicationIds already stored: build the scope
`districtCode/talukaCode/yy/`, take the lexicographically greatest stored
id matching `^scope<digits>$`, parse its numeric suffix (0 when none
matches), and append that number plus one. -/
def nextApplicationId (existing : List String) (districtCode talukaCode yy : String) :
    String :=
  let pfx := districtCode ++ "/" ++ talukaCode ++ "/" ++ yy ++ "/"
  let lastDoc := maxLex (existing.filter (matchesScopedId pfx))
  let maxNumber :=
    match lastDoc with
    | some s => scopedSuffixNat pfx s
    | none => 0
  pfx ++ toString (maxNumber + 1)

/-- The payload of surveyor sketch-upload `create` after the request
validator. -/
structure SketchPayload where
  surveyType : String
  district : Nat
  taluka : Nat
  hobli : Nat
  village : Nat
  surveyNo : String
  documents : List (String × SurveyDocRef)
  others : Option String
  deriving DecidableEq, Repr

/-- `create` from `src/services/surveyorSketchUpload.service.js`, composed
with the model's `pre("validate")` and `pre("save")` hooks that run inside
`doc.save()`:

1. only SURVEYOR actors may create;
2. district, taluka, hobli and village must each exist (NotFound per level);
3. the parent links are checked in order — taluka→district, hobli→taluka,
   village→hobli — failing BadRequest on the first mismatch;
4. the validate hook requires at least one populated document (the service
   maps the mongoose ValidationError to BadRequest `VALIDATION_ERROR`);
5. the save hook needs non-empty district and taluka codes (else the
   service maps the error to `APPLICATION_ID_GENERATION_FAILED`) and then
   generates the applicationId;
6. the write honours the `unique: true, sparse: true` index on
   `applicationId`: a generated id equal to a stored one is a duplicate-key
   error.

`yy` is the two-digit year string `new Date().getFullYear()` yields. -/
def sketchCreate (st : Store) (surveyor : User) (payload : SketchPayload)
    (freshId : Nat) (yy : String) : Except Err Upload × Store :=
  if surveyor.role != Role.SURVEYOR then
    (.error (.forbidden "ONLY_SURVEYORS_CAN_SUBMIT"), st)
  else
    match st.districts.find? (fun d => d.id == payload.district) with
    | none => (.error (.notFound "DISTRICT_NOT_FOUND"), st)
    | some district =>
      match st.talukas.find? (fun t => t.id == payload.taluka) with
      | none => (.error (.notFound "TALUKA_NOT_FOUND"), st)
      | some taluka =>
        match st.hoblis.find? (fun h => h.id == payload.hobli) with
        | none => (.error (.notFound "HOBLI_NOT_FOUND"), st)
        | some hobli =>
          match st.villages.find? (fun v => v.id == payload.village) with
          | none => (.error (.notFound "VILLAGE_NOT_FOUND"), st)
          | some village =>
            if taluka.districtId != payload.district then
              (.error (.badRequest "TALUKA_DISTRICT_MISMATCH"), st)
            else if hobli.talukaId != payload.taluka then
              (.error (.badRequest "HOBLI_TALUKA_MISMATCH"), st)
            else if village.hobliId != payload.hobli then
              (.error (.badRequest "VILLAGE_HOBLI_MISMATCH"), st)
            else if !hasAtLeastOneDocument payload.documents then
              (.error (.badRequest "VALIDATION_ERROR"), st)
            else if district.code == "" || taluka.code == "" then
              (.error (.badRequest "APPLICATION_ID_GENERATION_FAILED"), st)
            else
              let generated :=
                nextApplicationId (st.uploads.filterMap (fun u => u.applicationId))
                  district.code taluka.code yy
              if st.uploads.any (fun u => u.applicationId == some generated) then
                (.error (.conflict "DUPLICATE_APPLICATION_ID" freshId), st)
              else
                let doc : Upload :=
                  { id := freshId
                    surveyor := surveyor.id
                    surveyType := payload.surveyType
                    district := payload.district
                    taluka := payload.taluka
                    hobli := payload.hobli
                    village := payload.village
                    surveyNo := payload.surveyNo
                    applicationId := some generated
                    documents := payload.documents
                    others := payload.others
                    status := .PENDING }
                (.ok doc, { st with uploads := st.uploads ++ [doc] })

/-- The declared shape of the index
`SurveySketchAssignmentSchema.index({ surveyorSketchUpload: 1, status: 1 },
{ partialFilterExpression: { status: { $nin: ["CANCELLED"] } } })`. -/
structure AssignmentIndexSpec where
  keyFields : List String
  isUnique : Bool
  filterExcludesStatuses : List String
  deriving DecidableEq, Repr

/-- The index the assignment schema declares: the options object passes a
filter expression excluding CANCELLED but no `unique` option, so mongoose's
default `unique = false` applies. -/
def singleActiveIdx : AssignmentIndexSpec :=
  { keyFields := ["surveyorSketchUpload", "status"]
    isUnique := false
    filterExcludesStatuses := ["CANCELLED"] }

/-- Does this assignment fall inside the index's filter expression? -/
def inIdxFilter (idx : AssignmentIndexSpec) (a : Assignment) : Bool :=
  !(idx.filterExcludesStatuses.contains a.status.toStr)

/-- Do two assignments carry the same values on the index's
`{surveyorSketchUpload, status}` key? -/
def sameIdxKey (a b : Assignment) : Bool :=
  a.surveyorSketchUpload == b.surveyorSketchUpload && a.status == b.status

/-- Modelled from MongoDB index semantics (the write layer is not part of
this repository): an insert is rejected by an index exactly when the index
is unique, the new document falls inside the filter expression, and some
stored document inside the filter carries the same key values. -/
def mongoIndexRejectsInsert (idx : AssignmentIndexSpec)
    (existing : List Assignment) (newDoc : Assignment) : Bool :=
  idx.isUnique && inIdxFilter idx newDoc &&
    existing.any (fun d => inIdxFilter idx d && sameIdxKey d newDoc)

/-! ### Concrete fixtures used by witnesses and counterexamples -/

/-- A live CAD center with object id 2. -/
def center2 : CadCenter := { id := 2, deletedAt := none }

/-- A pending sketch upload with object id 1, one populated document. -/
def upload1 : Upload :=
  { id := 1, surveyor := 5, surveyType := "single_flat", district := 11,
    taluka := 12, hobli := 13, village := 14, surveyNo := "77",
    applicationId := none, documents := [("atlas", { url := "s3://a" })],
    others := none, status := .PENDING }

/-- A cancelled assignment of upload 1 to center 2. -/
def cancelledA : Assignment :=
  { id := 7, surveyorSketchUpload := 1, cadCenter := 2, assignedTo := none,
    status := .CANCELLED, assignedBy := 3, assignedAt := 0, dueDate := none,
    completedAt := none, notes := none }

/-- An ASSIGNED assignment of upload 1 to center 2. -/
def assignedA : Assignment :=
  { id := 8, surveyorSketchUpload := 1, cadCenter := 2, assignedTo := none,
    status := .ASSIGNED, assignedBy := 3, assignedAt := 0, dueDate := none,
    completedAt := none, notes := none }

/-- A store with a consistent master hierarchy, upload 1 and the ASSIGNED
assignment 8. -/
def baseStore : Store :=
  { districts := [{ id := 11, code := "KA-BLR" }]
    talukas := [{ id := 12, code := "BLR-N", districtId := 11 }]
    hoblis := [{ id := 13, talukaId := 12 }]
    villages := [{ id := 14, hobliId := 13 }]
    centers := [center2]
    uploads := [upload1]
    assignments := [assignedA] }

/-- `baseStore` with the assignment of upload 1 cancelled. -/
def cancelledStore : Store := { baseStore with assignments := [cancelledA] }

/-- `baseStore` with no uploads and no assignments. -/
def emptyUploadsStore : Store := { baseStore with uploads := [], assignments := [] }

/-- `baseStore` with taluka 12 rewired under district 99: the declared
parent link of the payload's taluka no longer matches the stored one. -/
def mismatchStore : Store :=
  { baseStore with talukas := [{ id := 12, code := "BLR-N", districtId := 99 }] }

/-- A CAD user linked to center 2. -/
def cadUser21 : User := { id := 21, role := .CAD, cadCenter := some 2 }

/-! ### Helper lemmas -/

theorem statusOfString_toStr (s : AssignmentStatus) : statusOfString s.toStr = some s := by
  cases s <;> rfl

theorem mem_setUploadStatus_status (st : Store) (i : Nat) (s : SketchStatus) :
    ∀ u ∈ (setUploadStatus st i s).uploads, u.id = i → u.status = s := by
  intro u hu hid
  simp only [setUploadStatus, List.mem_map] at hu
  obtain ⟨v, _, rfl⟩ := hu
  by_cases h : (v.id == i) = true
  · rw [if_pos h]
  · rw [if_neg h] at hid ⊢
    exact absurd (beq_iff_eq.mpr hid) h

/-! ### C2 — the backing index is not a uniqueness constraint -/

/-- C2: the claim says the assignment schema's partial index rejects a
second non-CANCELLED document for the same sketch at the write layer.  The
declared index passes no `unique` option, so as MongoDB semantics have it a
second ASSIGNED assignment for sketch 1 is *not* rejected — the constraint
the spec describes does not exist.  (The schema's own comments, "One active
assignment per surveyor sketch" and "unique assignment per sketch", state
the intended constraint.) -/
theorem duplicate_active_insert_not_rejected :
    singleActiveIdx.isUnique = false ∧
      mongoIndexRejectsInsert singleActiveIdx [assignedA]
        { id := 102, surveyorSketchUpload := 1, cadCenter := 2, assignedTo := none,
          status := .ASSIGNED, assignedBy := 3, assignedAt := 1, dueDate := none,
          completedAt := none, notes := none } = false := by
  constructor <;> rfl

/-! ### C3 — applicationId generation -/

/-- The applicationIds after nine consecutive creations in scope
`KA-BLR/BLR-N/26`. -/
def scopeIdsOneToNine : List String :=
  ["KA-BLR/BLR-N/26/1", "KA-BLR/BLR-N/26/2", "KA-BLR/BLR-N/26/3",
   "KA-BLR/BLR-N/26/4", "KA-BLR/BLR-N/26/5", "KA-BLR/BLR-N/26/6",
   "KA-BLR/BLR-N/26/7", "KA-BLR/BLR-N/26/8", "KA-BLR/BLR-N/26/9"]

/-- The applicationIds after ten consecutive creations in the same scope. -/
def scopeIdsOneToTen : List String := scopeIdsOneToNine ++ ["KA-BLR/BLR-N/26/10"]

/-- C3: evaluation of the generator along consecutive creations in scope
`KA-BLR/BLR-N/26`.  The first creation yields `/1` and the tenth `/10` as
the claim says, but on the eleventh the `sort({applicationId: -1})` query
is lexicographic, so among `/1 … /10` the greatest string is `/9` and the
generator emits `/10` *again* — an id that already exists, so the save
violates the unique `applicationId` index instead of yielding `/11`. -/
theorem application_id_collision_after_ten :
    nextApplicationId [] "KA-BLR" "BLR-N" "26" = "KA-BLR/BLR-N/26/1" ∧
      nextApplicationId ["KA-BLR/BLR-N/26/1"] "KA-BLR" "BLR-N" "26" = "KA-BLR/BLR-N/26/2" ∧
      nextApplicationId scopeIdsOneToNine "KA-BLR" "BLR-N" "26" = "KA-BLR/BLR-N/26/10" ∧
      nextApplicationId scopeIdsOneToTen "KA-BLR" "BLR-N" "26" = "KA-BLR/BLR-N/26/10" ∧
      scopeIdsOneToTen.contains "KA-BLR/BLR-N/26/10" = true := by
  refine ⟨rfl, rfl, ?_, ?_, by decide⟩ <;> decide

/-! ### C1 — single active assignment per sketch request -/

/-- C1: when the sketch and the center exist, assignment `create` on a
sketch request that already has a non-CANCELLED assignment fails with
Conflict naming that assignment's id and leaves the store unchanged; when
every existing assignment for the request is CANCELLED (or none exists), it
succeeds and persists a new assignment with status ASSIGNED. -/
theorem assignment_create_single_active
    (st : Store) (payload : CreateAssignmentPayload) (assignedBy freshId now : Nat)
    (hs : (findUpload st payload.surveyorSketchUploadId).isSome = true)
    (hc : (findCenter st payload.cadCenterId).isSome = true) :
    ((∃ a ∈ st.assignments,
        a.surveyorSketchUpload = payload.surveyorSketchUploadId ∧
          a.status ≠ AssignmentStatus.CANCELLED) →
      ∃ ex ∈ st.assignments,
        ex.surveyorSketchUpload = payload.surveyorSketchUploadId ∧
          ex.status ≠ AssignmentStatus.CANCELLED ∧
          assignmentCreate st payload assignedBy freshId now =
            (.error (.conflict "ALREADY_ASSIGNED" ex.id), st))
    ∧ ((∀ a ∈ st.assignments,
          a.surveyorSketchUpload = payload.surveyorSketchUploadId →
            a.status = AssignmentStatus.CANCELLED) →
        ∃ doc st',
          assignmentCreate st payload assignedBy freshId now = (.ok doc, st') ∧
            doc.status = AssignmentStatus.ASSIGNED ∧ doc ∈ st'.assignments) := by
  obtain ⟨sk, hsk⟩ := Option.isSome_iff_exists.mp hs
  obtain ⟨ce, hce⟩ := Option.isSome_iff_exists.mp hc
  constructor
  · rintro ⟨a, ha, haid, hast⟩
    have hfind : (st.assignments.find? (activeFor payload.surveyorSketchUploadId)).isSome = true := by
      refine List.find?_isSome.mpr ⟨a, ha, ?_⟩
      simp [activeFor, haid, hast]
    obtain ⟨ex, hex⟩ := Option.isSome_iff_exists.mp hfind
    have hmem := List.mem_of_find?_eq_some hex
    have hprop := List.find?_some hex
    simp only [activeFor, Bool.and_eq_true, beq_iff_eq, Bool.not_eq_true',
      beq_eq_false_iff_ne, ne_eq] at hprop
    refine ⟨ex, hmem, hprop.1, hprop.2, ?_⟩
    simp [assignmentCreate, hsk, hce, hex]
  · intro hall
    have hfind : st.assignments.find? (activeFor payload.surveyorSketchUploadId) = none := by
      refine List.find?_eq_none.mpr ?_
      intro a ha
      simp only [activeFor, Bool.and_eq_true, beq_iff_eq, Bool.not_eq_true',
        beq_eq_false_iff_ne, ne_eq, not_and, not_not]
      exact hall a ha
    simp only [assignmentCreate, hsk, hce, hfind]
    refine ⟨_, _, rfl, rfl, ?_⟩
    simp [setUploadStatus]

/-- Witness for C1: on `baseStore` (upload 1 has the ASSIGNED assignment 8)
create conflicts naming an active assignment; on `cancelledStore` (only a
CANCELLED assignment) it persists a new ASSIGNED assignment. -/
theorem assignment_create_single_active_witness :
    (∃ ex ∈ baseStore.assignments,
      ex.surveyorSketchUpload = 1 ∧ ex.status ≠ AssignmentStatus.CANCELLED ∧
        assignmentCreate baseStore
            { surveyorSketchUploadId := 1, cadCenterId := 2, dueDate := none, notes := none }
            3 9 0 =
          (.error (.conflict "ALREADY_ASSIGNED" ex.id), baseStore))
    ∧ (∃ doc st',
        assignmentCreate cancelledStore
            { surveyorSketchUploadId := 1, cadCenterId := 2, dueDate := none, notes := none }
            3 9 0 = (.ok doc, st') ∧
          doc.status = AssignmentStatus.ASSIGNED ∧ doc ∈ st'.assignments) :=
  ⟨(assignment_create_single_active baseStore
      { surveyorSketchUploadId := 1, cadCenterId := 2, dueDate := none, notes := none }
      3 9 0 (by decide) (by decide)).1 (by decide),
   (assignment_create_single_active cancelledStore
      { surveyorSketchUploadId := 1, cadCenterId := 2, dueDate := none, notes := none }
      3 9 0 (by decide) (by decide)).2 (by decide)⟩

/-! ### C4 — respond accept / reject on an ASSIGNED assignment -/

/-- C4: on an ASSIGNED assignment whose center matches the responding
user's linked center, `respond` with "accept" sets the assignment to
IN_PROGRESS with `assignedTo` the responding user, and `respond` with
"reject" sets it to CANCELLED and the linked sketch request to PENDING. -/
theorem respond_accept_and_reject
    (st : Store) (assignmentId : Nat) (cadUser : User) (doc : Assignment)
    (hf : findAssignment st assignmentId = some doc)
    (hc : cadUser.cadCenter = some doc.cadCenter)
    (hs : doc.status = AssignmentStatus.ASSIGNED) :
    (∃ doc',
      respondToAssignment st assignmentId cadUser "accept" =
          (.ok doc', saveAssignment st doc') ∧
        doc'.status = AssignmentStatus.IN_PROGRESS ∧ doc'.assignedTo = some cadUser.id)
    ∧ (∃ doc' st',
      respondToAssignment st assignmentId cadUser "reject" = (.ok doc', st') ∧
        doc'.status = AssignmentStatus.CANCELLED ∧
        ∀ u ∈ st'.uploads, u.id = doc.surveyorSketchUpload →
          u.status = SketchStatus.PENDING) := by
  constructor
  · exact ⟨{ doc with status := .IN_PROGRESS, assignedTo := some cadUser.id },
      by simp [respondToAssignment, hf, hc, hs], rfl, rfl⟩
  · exact ⟨{ doc with status := .CANCELLED },
      setUploadStatus (saveAssignment st { doc with status := AssignmentStatus.CANCELLED })
        doc.surveyorSketchUpload .PENDING,
      by simp [respondToAssignment, hf, hc, hs], rfl,
      mem_setUploadStatus_status _ _ _⟩

/-- Witness for C4: CAD user 21 (linked to center 2) accepting and
rejecting assignment 8 of `baseStore`. -/
theorem respond_accept_and_reject_witness :
    (∃ doc',
      respondToAssignment baseStore 8 cadUser21 "accept" =
          (.ok doc', saveAssignment baseStore doc') ∧
        doc'.status = AssignmentStatus.IN_PROGRESS ∧ doc'.assignedTo = some cadUser21.id)
    ∧ (∃ doc' st',
      respondToAssignment baseStore 8 cadUser21 "reject" = (.ok doc', st') ∧
        doc'.status = AssignmentStatus.CANCELLED ∧
        ∀ u ∈ st'.uploads, u.id = assignedA.surveyorSketchUpload →
          u.status = SketchStatus.PENDING) :=
  respond_accept_and_reject baseStore 8 cadUser21 assignedA (by decide) (by decide) (by decide)

/-! ### C5 — respond guards: wrong center, wrong status -/

/-- C5: `respond` by a user with no linked center, or whose linked center
differs from the assignment's, fails Forbidden and modifies nothing; when
the centers match but the assignment is not ASSIGNED, it fails BadRequest
naming the current status and modifies nothing. -/
theorem respond_guards
    (st : Store) (assignmentId : Nat) (cadUser : User) (action : String)
    (doc : Assignment)
    (hf : findAssignment st assignmentId = some doc) :
    (cadUser.cadCenter = none →
      respondToAssignment st assignmentId cadUser action =
        (.error (.forbidden "CAD_CENTER_NOT_LINKED"), st))
    ∧ (∀ c, cadUser.cadCenter = some c → c ≠ doc.cadCenter →
      respondToAssignment st assignmentId cadUser action =
        (.error (.forbidden "ASSIGNMENT_NOT_FOR_YOUR_CENTER"), st))
    ∧ (cadUser.cadCenter = some doc.cadCenter → doc.status ≠ AssignmentStatus.ASSIGNED →
      respondToAssignment st assignmentId cadUser action =
        (.error (.badRequestStatus "INVALID_STATUS_FOR_RESPONSE" doc.status), st)) := by
  refine ⟨?_, ?_, ?_⟩
  · intro hnone
    simp [respondToAssignment, hf, hnone]
  · intro c hsome hne
    simp [respondToAssignment, hf, hsome, hne]
  · intro hsome hne
    simp [respondToAssignment, hf, hsome, hne]

/-- Witness for C5: a center-less user, a user of another center, and a
response to a non-ASSIGNED (CANCELLED) assignment. -/
theorem respond_guards_witness :
    (respondToAssignment baseStore 8 { id := 22, role := .CAD, cadCenter := none } "accept" =
      (.error (.forbidden "CAD_CENTER_NOT_LINKED"), baseStore))
    ∧ (respondToAssignment baseStore 8 { id := 23, role := .CAD, cadCenter := some 5 } "accept" =
      (.error (.forbidden "ASSIGNMENT_NOT_FOR_YOUR_CENTER"), baseStore))
    ∧ (respondToAssignment cancelledStore 7 cadUser21 "accept" =
      (.error (.badRequestStatus "INVALID_STATUS_FOR_RESPONSE" AssignmentStatus.CANCELLED),
        cancelledStore)) :=
  ⟨(respond_guards baseStore 8 { id := 22, role := .CAD, cadCenter := none } "accept"
      assignedA (by decide)).1 rfl,
   (respond_guards baseStore 8 { id := 23, role := .CAD, cadCenter := some 5 } "accept"
      assignedA (by decide)).2.1 5 rfl (by decide),
   (respond_guards cancelledStore 7 cadUser21 "accept" cancelledA (by decide)).2.2
     (by decide) (by decide)⟩

/-! ### C10 — how the respond action is interpreted across the layers -/

/-- Counterexample for C10 as stated: on the respond route the action *is*
validated — `cadAssignmentRespond` lowercases and trims it and rejects
anything outside {accept, reject} before the controller and service run.
The casing variant "Accept" is normalized to "accept" and executed as an
accept (assignment 8 becomes IN_PROGRESS, not CANCELLED), and the
arbitrary string "cancel" fails BadRequest with the store unchanged, never
reaching the reject branch. -/
theorem respond_endpoint_accept_casing_not_reject :
    respondEndpoint baseStore 8 cadUser21 (some { action := some "Accept" }) =
      (.ok { assignedA with status := .IN_PROGRESS, assignedTo := some cadUser21.id },
        saveAssignment baseStore
          { assignedA with status := .IN_PROGRESS, assignedTo := some cadUser21.id })
    ∧ ({ assignedA with
          status := AssignmentStatus.IN_PROGRESS
          assignedTo := some cadUser21.id } : Assignment).status ≠ AssignmentStatus.CANCELLED
    ∧ respondEndpoint baseStore 8 cadUser21 (some { action := some "cancel" }) =
        (.error (.badRequest "action must be accept or reject"), baseStore) :=
  ⟨rfl, by decide, rfl⟩

/-- C10 (amended): the service function `respondToAssignment` taken alone
treats every action other than the exact string "accept" as a reject; but
the only route to it validates the action first — `cadAssignmentRespond`
lowercases and trims it and fails BadRequest on anything outside
{accept, reject} before the controller and service run.  So through the
endpoint an action whose lowercased, trimmed form is "accept" (e.g. the
casing variant "Accept") is executed as an accept, one whose normalized
form is "reject" as a reject, any other non-empty action fails BadRequest
with nothing modified, and a missing action defaults to "accept" (as does
the controller's own `payload?.action || "accept"` fallback). -/
theorem respond_action_validated
    (st : Store) (assignmentId : Nat) (cadUser : User) (a : String)
    (doc : Assignment)
    (hf : findAssignment st assignmentId = some doc)
    (hc : cadUser.cadCenter = some doc.cadCenter)
    (hs : doc.status = AssignmentStatus.ASSIGNED) :
    (a ≠ "accept" →
      ∃ doc' st',
        respondToAssignment st assignmentId cadUser a = (.ok doc', st') ∧
          doc'.status = AssignmentStatus.CANCELLED ∧
          ∀ u ∈ st'.uploads, u.id = doc.surveyorSketchUpload →
            u.status = SketchStatus.PENDING)
    ∧ (a ≠ "" → jsLowerTrim a = "accept" →
      ∃ doc',
        respondEndpoint st assignmentId cadUser (some { action := some a }) =
            (.ok doc', saveAssignment st doc') ∧
          doc'.status = AssignmentStatus.IN_PROGRESS ∧ doc'.assignedTo = some cadUser.id)
    ∧ (a ≠ "" → jsLowerTrim a = "reject" →
      ∃ doc' st',
        respondEndpoint st assignmentId cadUser (some { action := some a }) = (.ok doc', st') ∧
          doc'.status = AssignmentStatus.CANCELLED ∧
          ∀ u ∈ st'.uploads, u.id = doc.surveyorSketchUpload →
            u.status = SketchStatus.PENDING)
    ∧ (a ≠ "" → jsLowerTrim a ≠ "accept" → jsLowerTrim a ≠ "reject" →
      respondEndpoint st assignmentId cadUser (some { action := some a }) =
        (.error (.badRequest "action must be accept or reject"), st))
    ∧ (∃ doc',
        respondEndpoint st assignmentId cadUser none = (.ok doc', saveAssignment st doc') ∧
          doc'.status = AssignmentStatus.IN_PROGRESS ∧ doc'.assignedTo = some cadUser.id)
    ∧ controllerRespondAction none = "accept" := by
  refine ⟨?_, ?_, ?_, ?_, ?_, rfl⟩
  · intro ha
    exact ⟨{ doc with status := .CANCELLED },
      setUploadStatus (saveAssignment st { doc with status := AssignmentStatus.CANCELLED })
        doc.surveyorSketchUpload .PENDING,
      by simp [respondToAssignment, hf, hc, hs, ha], rfl,
      mem_setUploadStatus_status _ _ _⟩
  · intro hne hacc
    exact ⟨{ doc with status := .IN_PROGRESS, assignedTo := some cadUser.id },
      by simp [respondEndpoint, validateCadAssignmentRespond, hne, hacc,
        controllerRespondAction, respondToAssignment, hf, hc, hs], rfl, rfl⟩
  · intro hne hrej
    exact ⟨{ doc with status := .CANCELLED },
      setUploadStatus (saveAssignment st { doc with status := AssignmentStatus.CANCELLED })
        doc.surveyorSketchUpload .PENDING,
      by simp [respondEndpoint, validateCadAssignmentRespond, hne, hrej,
        controllerRespondAction, respondToAssignment, hf, hc, hs], rfl,
      mem_setUploadStatus_status _ _ _⟩
  · intro hne hna hnr
    simp [respondEndpoint, validateCadAssignmentRespond, hne, hna, hnr]
  · exact ⟨{ doc with status := .IN_PROGRESS, assignedTo := some cadUser.id },
      by simp [respondEndpoint, validateCadAssignmentRespond,
        controllerRespondAction, respondToAssignment, hf, hc, hs], rfl, rfl⟩

/-- Witness for C10 (amended), all on `baseStore`'s assignment 8 and CAD
user 21: the raw service cancels on "Accept"; the endpoint accepts on
"Accept", rejects on "Reject", fails BadRequest on "cancel", and accepts on
a missing body. -/
theorem respond_action_validated_witness :
    (∃ doc' st',
      respondToAssignment baseStore 8 cadUser21 "Accept" = (.ok doc', st') ∧
        doc'.status = AssignmentStatus.CANCELLED ∧
        ∀ u ∈ st'.uploads, u.id = assignedA.surveyorSketchUpload →
          u.status = SketchStatus.PENDING)
    ∧ (∃ doc',
      respondEndpoint baseStore 8 cadUser21 (some { action := some "Accept" }) =
          (.ok doc', saveAssignment baseStore doc') ∧
        doc'.status = AssignmentStatus.IN_PROGRESS ∧ doc'.assignedTo = some cadUser21.id)
    ∧ (∃ doc' st',
      respondEndpoint baseStore 8 cadUser21 (some { action := some "Reject" }) = (.ok doc', st') ∧
        doc'.status = AssignmentStatus.CANCELLED ∧
        ∀ u ∈ st'.uploads, u.id = assignedA.surveyorSketchUpload →
          u.status = SketchStatus.PENDING)
    ∧ (respondEndpoint baseStore 8 cadUser21 (some { action := some "cancel" }) =
        (.error (.badRequest "action must be accept or reject"), baseStore))
    ∧ (∃ doc',
      respondEndpoint baseStore 8 cadUser21 none = (.ok doc', saveAssignment baseStore doc') ∧
        doc'.status = AssignmentStatus.IN_PROGRESS ∧ doc'.assignedTo = some cadUser21.id) :=
  ⟨(respond_action_validated baseStore 8 cadUser21 "Accept" assignedA
      (by decide) (by decide) (by decide)).1 (by decide),
   (respond_action_validated baseStore 8 cadUser21 "Accept" assignedA
      (by decide) (by decide) (by decide)).2.1 (by decide) (by decide),
   (respond_action_validated baseStore 8 cadUser21 "Reject" assignedA
      (by decide) (by decide) (by decide)).2.2.1 (by decide) (by decide),
   (respond_action_validated baseStore 8 cadUser21 "cancel" assignedA
      (by decide) (by decide) (by decide)).2.2.2.1 (by decide) (by decide) (by decide),
   (respond_action_validated baseStore 8 cadUser21 "x" assignedA
      (by decide) (by decide) (by decide)).2.2.2.2.1⟩

/-! ### C8 — admin update: free transitions, COMPLETED / CANCELLED side effects -/

/-- C8: admin `update` on an existing assignment accepts any of the five
statuses whatever the current status is (no transition table); setting
COMPLETED stamps `completedAt` with the current time, and setting CANCELLED
additionally reverts the linked sketch request to PENDING. -/
theorem admin_update_transitions
    (st : Store) (assignmentId now : Nat) (s : AssignmentStatus) (doc : Assignment)
    (hf : findAssignment st assignmentId = some doc) :
    ∃ doc' st',
      assignmentUpdate st assignmentId
          { status := some s.toStr, dueDate := none, notes := none } now = (.ok doc', st') ∧
        doc'.status = s ∧
        (s = AssignmentStatus.COMPLETED → doc'.completedAt = some now) ∧
        (s = AssignmentStatus.CANCELLED →
          ∀ u ∈ st'.uploads, u.id = doc.surveyorSketchUpload →
            u.status = SketchStatus.PENDING) := by
  simp only [assignmentUpdate, hf, statusOfString_toStr, Option.getD_some]
  refine ⟨_, _, rfl, rfl, ?_, ?_⟩
  · intro h
    subst h
    simp
  · intro h
    subst h
    rw [if_pos (by decide)]
    exact mem_setUploadStatus_status _ _ _

/-- Witness for C8: on `baseStore`'s assignment 8, update to COMPLETED
stamps the timestamp, and update to CANCELLED reverts upload 1 to
PENDING. -/
theorem admin_update_transitions_witness :
    (∃ doc' st',
      assignmentUpdate baseStore 8
          { status := some "COMPLETED", dueDate := none, notes := none } 5 = (.ok doc', st') ∧
        doc'.status = AssignmentStatus.COMPLETED ∧
        (AssignmentStatus.COMPLETED = AssignmentStatus.COMPLETED → doc'.completedAt = some 5) ∧
        (AssignmentStatus.COMPLETED = AssignmentStatus.CANCELLED →
          ∀ u ∈ st'.uploads, u.id = assignedA.surveyorSketchUpload →
            u.status = SketchStatus.PENDING))
    ∧ (∃ doc' st',
      assignmentUpdate baseStore 8
          { status := some "CANCELLED", dueDate := none, notes := none } 5 = (.ok doc', st') ∧
        doc'.status = AssignmentStatus.CANCELLED ∧
        (AssignmentStatus.CANCELLED = AssignmentStatus.COMPLETED → doc'.completedAt = some 5) ∧
        (AssignmentStatus.CANCELLED = AssignmentStatus.CANCELLED →
          ∀ u ∈ st'.uploads, u.id = assignedA.surveyorSketchUpload →
            u.status = SketchStatus.PENDING)) :=
  ⟨admin_update_transitions baseStore 8 5 AssignmentStatus.COMPLETED assignedA (by decide),
   admin_update_transitions baseStore 8 5 AssignmentStatus.CANCELLED assignedA (by decide)⟩

/-! ### C9 — invalid enum value on assignment update is a BadRequest -/

/-- C9: the assignment-update endpoint rejects a status string that (after
uppercasing) is outside the five-value enum with a BadRequest reported to
the caller, and nothing is modified. -/
theorem update_invalid_enum_bad_request
    (st : Store) (assignmentId : Nat) (body : UpdateReqBody) (now : Nat) (s : String)
    (hs : body.status = some s)
    (hbad : ASSIGNMENT_STATUS_VALUES.contains (jsToUpper s) = false) :
    updateEndpoint st assignmentId body now =
      (.error (.badRequest
        "status must be one of: ASSIGNED, IN_PROGRESS, COMPLETED, ON_HOLD, CANCELLED"), st) := by
  have hnotmem : ¬ jsToUpper s ∈ ASSIGNMENT_STATUS_VALUES := by
    simpa using hbad
  simp [updateEndpoint, validateAssignmentUpdate, hs, hnotmem]

/-- Witness for C9: status "done" uppercases to "DONE", which is outside
the enum, so the endpoint returns the BadRequest unchanged-store pair. -/
theorem update_invalid_enum_bad_request_witness :
    updateEndpoint baseStore 8 { status := some "done", dueDate := none, notes := none } 5 =
      (.error (.badRequest
        "status must be one of: ASSIGNED, IN_PROGRESS, COMPLETED, ON_HOLD, CANCELLED"),
        baseStore) :=
  update_invalid_enum_bad_request baseStore 8
    { status := some "done", dueDate := none, notes := none } 5 "done" rfl (by decide)

/-! ### C6 — hierarchy validation order and error class -/

/-- A surveyor actor for sketch-upload creation. -/
def surveyorUser : User := { id := 5, role := .SURVEYOR, cadCenter := none }

/-- A creation payload matching `baseStore`'s master hierarchy, with one
populated document. -/
def sketchPayloadA : SketchPayload :=
  { surveyType := "single_flat", district := 11, taluka := 12, hobli := 13,
    village := 14, surveyNo := "101", documents := [("atlas", { url := "s3://x" })],
    others := none }

/-- `sketchPayloadA` with no document references at all. -/
def sketchPayloadNoDocs : SketchPayload := { sketchPayloadA with documents := [] }

/-- C6 (amended): when all four location ids resolve, sketch-request
creation checks the declared parent links in order — taluka→district,
hobli→taluka, village→hobli — and fails on the first mismatch with a
BadRequest-class hierarchy error naming the offending level, persisting
nothing.  (The claim calls the error NotFound-class; the code throws
`BadRequestError`.) -/
theorem hierarchy_first_mismatch
    (st : Store) (surveyor : User) (payload : SketchPayload) (freshId : Nat) (yy : String)
    (d : District) (t : Taluka) (h : Hobli) (v : Village)
    (hrole : surveyor.role = Role.SURVEYOR)
    (hd : st.districts.find? (fun x => x.id == payload.district) = some d)
    (ht : st.talukas.find? (fun x => x.id == payload.taluka) = some t)
    (hh : st.hoblis.find? (fun x => x.id == payload.hobli) = some h)
    (hv : st.villages.find? (fun x => x.id == payload.village) = some v) :
    (t.districtId ≠ payload.district →
      sketchCreate st surveyor payload freshId yy =
        (.error (.badRequest "TALUKA_DISTRICT_MISMATCH"), st))
    ∧ (t.districtId = payload.district → h.talukaId ≠ payload.taluka →
      sketchCreate st surveyor payload freshId yy =
        (.error (.badRequest "HOBLI_TALUKA_MISMATCH"), st))
    ∧ (t.districtId = payload.district → h.talukaId = payload.taluka →
        v.hobliId ≠ payload.hobli →
      sketchCreate st surveyor payload freshId yy =
        (.error (.badRequest "VILLAGE_HOBLI_MISMATCH"), st)) := by
  refine ⟨?_, ?_, ?_⟩
  · intro h1
    simp [sketchCreate, hrole, hd, ht, hh, hv, h1]
  · intro h1 h2
    simp [sketchCreate, hrole, hd, ht, hh, hv, h1, h2]
  · intro h1 h2 h3
    simp [sketchCreate, hrole, hd, ht, hh, hv, h1, h2, h3]

/-- Counterexample for C6 as stated: in `mismatchStore` the taluka's stored
parent is district 99 while the payload declares district 11; creation
fails, but with a BadRequest-class error (`TALUKA_DISTRICT_MISMATCH`), not
a NotFound-class one. -/
theorem hierarchy_mismatch_not_notfound :
    sketchCreate mismatchStore surveyorUser sketchPayloadA 9 "26" =
      (.error (.badRequest "TALUKA_DISTRICT_MISMATCH"), mismatchStore)
    ∧ Err.isNotFound (.badRequest "TALUKA_DISTRICT_MISMATCH") = false := by
  exact ⟨rfl, rfl⟩

/-- Witness for C6: the same mismatched store, through the amended
theorem. -/
theorem hierarchy_first_mismatch_witness :
    sketchCreate mismatchStore surveyorUser sketchPayloadA 9 "26" =
      (.error (.badRequest "TALUKA_DISTRICT_MISMATCH"), mismatchStore) :=
  (hierarchy_first_mismatch mismatchStore surveyorUser sketchPayloadA 9 "26"
    { id := 11, code := "KA-BLR" } { id := 12, code := "BLR-N", districtId := 99 }
    { id := 13, talukaId := 12 } { id := 14, hobliId := 13 }
    rfl (by decide) (by decide) (by decide) (by decide)).1 (by decide)

/-! ### C7 — at least one populated document reference -/

theorem hasAtLeastOneDocument_single (k : String) (ref : SurveyDocRef)
    (hk : k ∈ SURVEY_SKETCH_DOCUMENT_KEYS) (hu : ref.url ≠ "") :
    hasAtLeastOneDocument [(k, ref)] = true := by
  simp only [hasAtLeastOneDocument, docGet, List.any_eq_true]
  refine ⟨k, List.mem_filter.mpr ⟨hk, by simp⟩, ?_⟩
  simp [hu]

/-- C7: with the actor and hierarchy valid, a sketch request whose
documents map has no entry with a non-empty url under the five fixed keys
is rejected at creation, while a request with exactly one populated
reference among those keys (and a fresh generated applicationId) is
accepted and persisted. -/
theorem sketch_create_document_requirement
    (st : Store) (surveyor : User) (payload : SketchPayload) (freshId : Nat) (yy : String)
    (d : District) (t : Taluka) (h : Hobli) (v : Village)
    (hrole : surveyor.role = Role.SURVEYOR)
    (hd : st.districts.find? (fun x => x.id == payload.district) = some d)
    (ht : st.talukas.find? (fun x => x.id == payload.taluka) = some t)
    (hh : st.hoblis.find? (fun x => x.id == payload.hobli) = some h)
    (hv : st.villages.find? (fun x => x.id == payload.village) = some v)
    (h1 : t.districtId = payload.district) (h2 : h.talukaId = payload.taluka)
    (h3 : v.hobliId = payload.hobli)
    (hdc : d.code ≠ "") (htc : t.code ≠ "") :
    (hasAtLeastOneDocument payload.documents = false →
      sketchCreate st surveyor payload freshId yy =
        (.error (.badRequest "VALIDATION_ERROR"), st))
    ∧ (∀ k ref, payload.documents = [(k, ref)] →
        k ∈ SURVEY_SKETCH_DOCUMENT_KEYS → ref.url ≠ "" →
        st.uploads.any (fun u => u.applicationId ==
          some (nextApplicationId (st.uploads.filterMap (fun u => u.applicationId))
            d.code t.code yy)) = false →
        ∃ up st', sketchCreate st surveyor payload freshId yy = (.ok up, st') ∧
          up ∈ st'.uploads ∧ up.documents = [(k, ref)]) := by
  constructor
  · intro hno
    simp [sketchCreate, hrole, hd, ht, hh, hv, h1, h2, h3, hno]
  · intro k ref hdocs hk hu hfresh
    have hone : hasAtLeastOneDocument [(k, ref)] = true :=
      hasAtLeastOneDocument_single k ref hk hu
    simp [sketchCreate, hrole, hd, ht, hh, hv, h1, h2, h3, hone, hfresh, hdc, htc, hdocs]
    exact ⟨_, _, ⟨rfl, rfl⟩, by simp, rfl⟩

/-- Witness for C7: on `emptyUploadsStore`, a zero-document payload is
rejected with the validation error, and the one-document payload is
persisted. -/
theorem sketch_create_document_requirement_witness :
    (sketchCreate emptyUploadsStore surveyorUser sketchPayloadNoDocs 9 "26" =
      (.error (.badRequest "VALIDATION_ERROR"), emptyUploadsStore))
    ∧ (∃ up st',
        sketchCreate emptyUploadsStore surveyorUser sketchPayloadA 9 "26" = (.ok up, st') ∧
          up ∈ st'.uploads ∧
          up.documents = [("atlas", { url := "s3://x" })]) :=
  ⟨(sketch_create_document_requirement emptyUploadsStore surveyorUser sketchPayloadNoDocs 9 "26"
      { id := 11, code := "KA-BLR" } { id := 12, code := "BLR-N", districtId := 11 }
      { id := 13, talukaId := 12 } { id := 14, hobliId := 13 }
      rfl (by decide) (by decide) (by decide) (by decide) rfl rfl rfl
      (by decide) (by decide)).1 (by decide),
   (sketch_create_document_requirement emptyUploadsStore surveyorUser sketchPayloadA 9 "26"
      { id := 11, code := "KA-BLR" } { id := 12, code := "BLR-N", districtId := 11 }
      { id := 13, talukaId := 12 } { id := 14, hobliId := 13 }
      rfl (by decide) (by decide) (by decide) (by decide) rfl rfl rfl
      (by decide) (by decide)).2 "atlas" { url := "s3://x" } rfl (by decide) (by decide)
      (by decide)⟩

end CadBackend
